import Mathlib

/-!
Verification of the habit-motivation chatbot core.

Shallow embedding of the repository's core logic:

* `src/database.py` — the check-in store and streak calculator backed by
  SQLite.  Calendar dates are stored as ISO `YYYY-MM-DD` strings; for such
  strings lexicographic order coincides with calendar order, and
  `log_checkin` / `_get_completed_dates` round-trip dates through
  `date.isoformat` / `datetime.strptime` losslessly.  We therefore model a
  calendar date as an integer day number (`Int`), and `ORDER BY
  checkin_date DESC` as sorting those integers in descending order.
* `src/utils.py` — quotes and the milestone message.
* `src/chatbot.py` — the motivational-message path with its LLM fallback.

Python `sqlite3` specifics reflected in the model:

* `PRAGMA foreign_keys = ON` is connection-scoped in SQLite and is issued
  only by `initialize_db` on its own connection.  Every other function
  (in particular `log_checkin`) opens a fresh connection via
  `_get_connection`, which never issues the pragma, so the
  `FOREIGN KEY (habit_id)` clause of the `progress` table is *not*
  enforced at `log_checkin`'s INSERT: the insert succeeds for any
  `habit_id`.  `log_checkin` is therefore total in the model.
* `get_streak` takes only `habit_id` in the source and obtains the
  reference date by calling `date.today()` internally.  The model makes
  that internal wall-clock read an explicit parameter `today`: the
  `today` argument below is the value the wall clock returns during the
  call, not a caller-supplied reference date.
-/

/-- One row of the `progress` table: `habit_id`, `checkin_date`
(as a day number), and the stored `completed` integer (`0` or `1`,
written by `log_checkin` as `int(bool(completed))`). -/
structure ProgressRow where
  habit_id : Nat
  checkin_date : Int
  completed : Nat
deriving DecidableEq, Repr

/-- One row of the `habits` table. -/
structure Habit where
  id : Nat
  user_id : Nat
  name : String
  start_date : Int
deriving DecidableEq, Repr

/-- The database state: the `habits` table and the `progress` table,
each as a list of rows in insertion order. -/
structure DB where
  habits : List Habit
  progress : List ProgressRow
deriving DecidableEq, Repr

/-- `log_checkin(habit_id, completed, checkin_date)` from `src/database.py`.
The Python parameter `checkin_date` defaults to `date.today()`; the model
always passes the date explicitly.  The INSERT appends one row storing
`int(bool(completed))`; no duplicate check and no foreign-key check is
performed (the FK pragma is never set on this connection). -/
def log_checkin (db : DB) (habit_id : Nat) (completed : Bool) (checkin_date : Int) : DB :=
  { db with
    progress := db.progress ++ [⟨habit_id, checkin_date, if completed then 1 else 0⟩] }

/-- The SQL `WHERE habit_id = ? AND completed = 1` predicate of
`_get_completed_dates`. -/
def completedRow (habit_id : Nat) (r : ProgressRow) : Bool :=
  r.habit_id == habit_id && r.completed == 1

instance : DecidableRel (fun a b : Int => b ≤ a) :=
  fun a b => inferInstanceAs (Decidable (b ≤ a))

instance : IsTotal Int (fun a b : Int => b ≤ a) :=
  ⟨fun a b => le_total b a⟩

instance : IsTrans Int (fun a b : Int => b ≤ a) :=
  ⟨fun _ _ _ hab hbc => le_trans hbc hab⟩

instance : IsAntisymm Int (fun a b : Int => b ≤ a) :=
  ⟨fun _ _ h1 h2 => le_antisymm h2 h1⟩

/-- `_get_completed_dates(habit_id)` from `src/database.py`:
`SELECT checkin_date FROM progress WHERE habit_id = ? AND completed = 1
ORDER BY checkin_date DESC`, dates parsed back to date objects.
Modelled as: project the matching rows to their dates and sort
descending (lexicographic order on ISO date strings is calendar order). -/
def _get_completed_dates (db : DB) (habit_id : Nat) : List Int :=
  List.insertionSort (fun a b : Int => b ≤ a)
    ((db.progress.filter (completedRow habit_id)).map (fun r => r.checkin_date))

/-- The `for i, record_date in enumerate(completed_dates)` loop of
`get_streak`: at index `i` the expected date is `today - i`; a matching
record increments the streak, the first mismatch breaks the loop. -/
def streakAux (today : Int) : List Int → Nat → Nat
  | [], _ => 0
  | d :: ds, i => if d = today - (i : Int) then streakAux today ds (i + 1) + 1 else 0

/-- `get_streak(habit_id)` from `src/database.py`.  In the source the
function takes only `habit_id` and reads `today = date.today()` inside;
here `today` is that internal wall-clock read made explicit. -/
def get_streak (db : DB) (habit_id : Nat) (today : Int) : Nat :=
  let completed_dates := _get_completed_dates db habit_id
  if completed_dates.isEmpty then 0
  else streakAux today completed_dates 0

/-- `d` is a date on which habit `habit_id` has a stored completed record. -/
def completedOn (db : DB) (habit_id : Nat) (d : Int) : Prop :=
  ∃ r ∈ db.progress, r.habit_id = habit_id ∧ r.completed = 1 ∧ r.checkin_date = d

instance (db : DB) (habit_id : Nat) (d : Int) : Decidable (completedOn db habit_id d) :=
  inferInstanceAs (Decidable (∃ r ∈ db.progress, _ ∧ _ ∧ _))

/-- The `QUOTES` list from `src/utils.py`. -/
def QUOTES : List String :=
  ["Every journey begins with a single step.",
   "Success is the sum of small efforts, repeated day in and day out.",
   "Don\x27t watch the clock; do what it does. Keep going.",
   "The secret of getting ahead is getting started.",
   "Keep pushing forward – your hard work will pay off.",
   "Discipline is choosing between what you want now and what you want most.",
   "Little by little, a little becomes a lot."]

/-- `get_random_quote()` from `src/utils.py` returns `random.choice(QUOTES)`;
the random draw is modelled by an explicit index reduced mod the length. -/
def get_random_quote (randIndex : Nat) : String :=
  QUOTES.getD (randIndex % QUOTES.length) ""

/-- `get_milestone_message(streak)` from `src/utils.py`:
`if streak in (3, 7, 10)` return the celebration f-string, else `""`. -/
def get_milestone_message (streak : Int) : String :=
  if streak = 3 ∨ streak = 7 ∨ streak = 10 then
    "🎉 You\x27ve hit a " ++ toString streak ++ "-day streak! Amazing discipline!"
  else ""

/-- Outcome of the `ChatOpenAI` call inside `get_motivational_message`:
either a reply with some content, or an exception raised anywhere in the
`try` block (`except Exception`). -/
inductive LLMOutcome where
  | ok (content : String) : LLMOutcome
  | error : LLMOutcome
deriving DecidableEq

/-- `get_motivational_message(user_name, habit_name, streak)` from
`src/chatbot.py`.  `api_key` models `os.getenv("OPENAI_API_KEY")`
(`none` = unset; Python's `if not api_key` is also true for `""`),
`outcome` models the LLM call, `randIndex` the random quote draw.
On a present non-empty key and a successful call the reply's stripped
content is returned; otherwise a random canned quote.  The `except`
clause makes the Python function total, hence the `String` (not
`Except`) result type. -/
def get_motivational_message (api_key : Option String) (outcome : LLMOutcome)
    (randIndex : Nat) (user_name habit_name : String) (streak : Int) : String :=
  match api_key with
  | none => get_random_quote randIndex
  | some k =>
    if k = "" then get_random_quote randIndex
    else
      match outcome with
      | LLMOutcome.ok content => content.trim
      | LLMOutcome.error => get_random_quote randIndex

/-- `celebrate_milestone(streak)` from `src/chatbot.py`. -/
def celebrate_milestone (streak : Int) : String :=
  get_milestone_message streak

/-! ### Concrete databases used in witnesses and counterexamples -/

/-- Two consecutive completions: days 100 and 99 of habit 1. -/
def exDbPair : DB := ⟨[], [⟨1, 100, 1⟩, ⟨1, 99, 1⟩]⟩

/-- Same completed date set as `exDbPair` but day 100 logged twice. -/
def exDbDup : DB := ⟨[], [⟨1, 100, 1⟩, ⟨1, 100, 1⟩, ⟨1, 99, 1⟩]⟩

/-- A completion dated in the future (day 101) next to one on day 100. -/
def exDbFut : DB := ⟨[], [⟨1, 101, 1⟩, ⟨1, 100, 1⟩]⟩

/-- A single completion of habit 1 on day 100. -/
def exDbOne : DB := ⟨[], [⟨1, 100, 1⟩]⟩

/-- A single completion of habit 1 on day 99 (yesterday relative to 100). -/
def exDbPrev : DB := ⟨[], [⟨1, 99, 1⟩]⟩

/-- Empty database: no habits, no progress rows. -/
def exDbEmpty : DB := ⟨[], []⟩

/-- Habit 1 has only a not-completed row; habit 2 has a completion. -/
def exDbMiss : DB := ⟨[], [⟨2, 100, 1⟩, ⟨1, 100, 0⟩]⟩

/-- Same completed dates for habit 1 as `exDbPair`, but with an extra
habit row, an incomplete row and another habit's completion mixed in. -/
def exDbNoisy : DB :=
  ⟨[⟨1, 1, "meditate", 90⟩], [⟨1, 100, 1⟩, ⟨1, 99, 1⟩, ⟨1, 98, 0⟩, ⟨2, 97, 1⟩]⟩

/-- `exDbPair` with its two progress rows inserted in the other order. -/
def exDbPairRev : DB := ⟨[], [⟨1, 99, 1⟩, ⟨1, 100, 1⟩]⟩

/-! ### Helper lemmas -/

lemma mem_get_completed_dates (db : DB) (habit_id : Nat) (d : Int) :
    d ∈ _get_completed_dates db habit_id ↔ completedOn db habit_id d := by
  simp only [_get_completed_dates, List.mem_insertionSort, List.mem_map, List.mem_filter,
    completedRow, Bool.and_eq_true, beq_iff_eq, completedOn]
  constructor
  · rintro ⟨r, ⟨hr, h1, h2⟩, h3⟩
    exact ⟨r, hr, h1, h2, h3⟩
  · rintro ⟨r, hr, h1, h2, h3⟩
    exact ⟨r, ⟨hr, h1, h2⟩, h3⟩

lemma sorted_get_completed_dates (db : DB) (habit_id : Nat) :
    List.Sorted (fun a b : Int => b ≤ a) (_get_completed_dates db habit_id) :=
  List.sorted_insertionSort _ _

lemma get_streak_eq_streakAux (db : DB) (habit_id : Nat) (t : Int) :
    get_streak db habit_id t = streakAux t (_get_completed_dates db habit_id) 0 := by
  simp only [get_streak]
  cases hL : _get_completed_dates db habit_id <;> simp [hL, streakAux]

lemma streakAux_shift (t : Int) (ds : List Int) : ∀ i : Nat,
    streakAux t ds (i + 1) = streakAux (t - 1) ds i := by
  induction ds with
  | nil => intro i; rfl
  | cons d ds ih =>
    intro i
    simp only [streakAux]
    rw [show ((i + 1 : Nat) : Int) = (i : Int) + 1 by push_cast; ring]
    rw [show t - ((i : Int) + 1) = t - 1 - (i : Int) by ring]
    rw [ih (i + 1)]

lemma streakAux_spec (n : Nat) : ∀ (t : Int) (L : List Int),
    List.Sorted (fun a b : Int => b ≤ a) L → L.Nodup →
    (∀ x ∈ L, x ≤ t) → (∀ k : Nat, k < n → t - (k : Int) ∈ L) →
    (t - (n : Int)) ∉ L → streakAux t L 0 = n := by
  induction n with
  | zero =>
    intro t L _ _ _ _ hout
    simp only [Nat.cast_zero, sub_zero] at hout
    cases L with
    | nil => rfl
    | cons d ds =>
      have hd : d ≠ t := fun h => hout (h ▸ List.mem_cons_self d ds)
      simp [streakAux, hd]
  | succ n ih =>
    intro t L hsort hnd hle hin hout
    have ht : t ∈ L := by
      have h0 := hin 0 (Nat.succ_pos n)
      simpa using h0
    cases L with
    | nil => simp at ht
    | cons d ds =>
      have hdt : d = t := by
        rcases List.mem_cons.mp ht with h | h
        · exact h.symm
        · exact le_antisymm (hle d (List.mem_cons_self d ds))
            (List.rel_of_sorted_cons hsort t h)
      subst hdt
      have htds : d ∉ ds := (List.nodup_cons.mp hnd).1
      have hstep : streakAux d (d :: ds) 0 = streakAux (d - 1) ds 0 + 1 := by
        have h1 : streakAux d (d :: ds) 0 = streakAux d ds 1 + 1 := by
          simp [streakAux]
        have h2 := streakAux_shift d ds 0
        norm_num at h2
        rw [h1, h2]
      rw [hstep]
      have ihds : streakAux (d - 1) ds 0 = n := by
        apply ih (d - 1) ds hsort.of_cons (List.nodup_cons.mp hnd).2
        · intro x hx
          have hx1 : x ≤ d := hle x (List.mem_cons_of_mem _ hx)
          have hx2 : x ≠ d := fun h => htds (h ▸ hx)
          omega
        · intro k hk
          have hk1 := hin (k + 1) (by omega)
          rw [show d - ((k + 1 : Nat) : Int) = d - 1 - (k : Int) by push_cast; ring] at hk1
          rcases List.mem_cons.mp hk1 with h | h
          · exfalso; omega
          · exact h
        · intro hmem
          apply hout
          rw [show d - ((n + 1 : Nat) : Int) = d - 1 - (n : Int) by push_cast; ring]
          exact List.mem_cons_of_mem _ hmem
      omega

lemma get_completed_dates_perm_congr {db db' : DB} (habit_id : Nat)
    (hp : db.progress.Perm db'.progress) :
    _get_completed_dates db habit_id = _get_completed_dates db' habit_id := by
  unfold _get_completed_dates
  refine List.eq_of_perm_of_sorted ?_ (List.sorted_insertionSort _ _)
    (List.sorted_insertionSort _ _)
  exact (List.perm_insertionSort _ _).trans
    (((hp.filter _).map _).trans (List.perm_insertionSort _ _).symm)

lemma get_completed_dates_eq_nil (db : DB) (habit_id : Nat)
    (hnone : ∀ r ∈ db.progress, r.habit_id = habit_id → r.completed ≠ 1) :
    _get_completed_dates db habit_id = [] := by
  unfold _get_completed_dates
  have hf : db.progress.filter (completedRow habit_id) = [] := by
    rw [List.filter_eq_nil_iff]
    intro r hr
    simp only [completedRow, Bool.and_eq_true, beq_iff_eq, not_and]
    exact hnone r hr
  rw [hf]
  rfl

lemma get_random_quote_mem (i : Nat) : get_random_quote i ∈ QUOTES := by
  have hlen : i % QUOTES.length < QUOTES.length := Nat.mod_lt _ (by decide)
  unfold get_random_quote
  rw [List.getD_eq_getElem _ _ hlen]
  exact List.getElem_mem hlen

lemma raw_log_checkin_true (db : DB) (habit_id : Nat) (d : Int) :
    ((log_checkin db habit_id true d).progress.filter (completedRow habit_id)).map
        (fun r => r.checkin_date)
      = (db.progress.filter (completedRow habit_id)).map (fun r => r.checkin_date) ++ [d] := by
  simp [log_checkin, completedRow, List.filter_append]

/-! ### Claim theorems -/

/-- C1 (amended): for a habit whose completed records carry pairwise-distinct
dates, none of which lies after `today`, a completed record on each of
`today - k` for `k < n` together with no completed record on `today - n`
makes `get_streak` return exactly `n`. -/
theorem C1_streak_counts_consecutive_days (db : DB) (habit_id : Nat) (today : Int) (n : Nat)
    (hnd : (_get_completed_dates db habit_id).Nodup)
    (hle : ∀ d ∈ _get_completed_dates db habit_id, d ≤ today)
    (hin : ∀ k : Nat, k < n → completedOn db habit_id (today - (k : Int)))
    (hout : ¬ completedOn db habit_id (today - (n : Int))) :
    get_streak db habit_id today = n := by
  rw [get_streak_eq_streakAux]
  refine streakAux_spec n today _ (sorted_get_completed_dates db habit_id) hnd hle ?_ ?_
  · intro k hk
    exact (mem_get_completed_dates db habit_id _).mpr (hin k hk)
  · intro hmem
    exact hout ((mem_get_completed_dates db habit_id _).mp hmem)

/-- C1 fails as stated on two kinds of histories: with a duplicate completed
record on `today` (plus one on `today - 1`, none on `today - 2`) the streak
is 1 rather than the claimed 2, and with a completed record dated after
`today` (completed on `today`, none on `today - 1`) the streak is 0 rather
than the claimed 1. -/
theorem C1_counterexample :
    (completedOn exDbDup 1 100 ∧ completedOn exDbDup 1 99 ∧ ¬ completedOn exDbDup 1 98 ∧
      get_streak exDbDup 1 100 = 1 ∧ get_streak exDbDup 1 100 ≠ 2) ∧
    (completedOn exDbFut 1 100 ∧ ¬ completedOn exDbFut 1 99 ∧
      get_streak exDbFut 1 100 = 0 ∧ get_streak exDbFut 1 100 ≠ 1) := by
  decide

/-- C1 witness: completions on days 100 and 99 only, evaluated on day 100,
give streak 2. -/
theorem C1_streak_counts_consecutive_days_witness : get_streak exDbPair 1 100 = 2 :=
  C1_streak_counts_consecutive_days exDbPair 1 100 2 (by decide) (by decide) (by decide)
    (by decide)

/-- C2 (amended): `get_streak` has no reference-date parameter; it reads
`today` from the wall clock internally.  Given that wall-clock date, the
result is a pure deterministic function of the stored completed dates. -/
theorem C2_streak_function_of_history_and_clock (db db' : DB) (habit_id habit_id' : Nat)
    (today : Int)
    (hist : _get_completed_dates db habit_id = _get_completed_dates db' habit_id') :
    get_streak db habit_id today = get_streak db' habit_id' today := by
  simp only [get_streak, hist]

/-- C2 fails as stated: with an unchanged history (one completion of habit 1
on day 100) the result of `get_streak` differs between a call made while the
wall clock reads day 100 and one made while it reads day 101, so the
computation does read the wall clock rather than an explicit input. -/
theorem C2_counterexample : get_streak exDbOne 1 100 ≠ get_streak exDbOne 1 101 := by
  decide

/-- C2 witness: two different database states with identical completed
dates for habit 1 yield the same streak on day 100. -/
theorem C2_streak_function_of_history_and_clock_witness :
    get_streak exDbPair 1 100 = get_streak exDbNoisy 1 100 :=
  C2_streak_function_of_history_and_clock exDbPair exDbNoisy 1 1 100 (by decide)

/-- C3 (amended): for a `habit_id` that does not reference an existing habit,
`log_checkin` still succeeds and appends the row (no foreign-key check runs
on its connection), and `get_streak` returns the defaulted result 0 instead
of failing with NotFound. -/
theorem C3_missing_habit_not_rejected (db : DB) (habit_id : Nat) (c : Bool) (d today : Int)
    (habsent : ∀ hb ∈ db.habits, hb.id ≠ habit_id)
    (hnorow : ∀ r ∈ db.progress, r.habit_id ≠ habit_id) :
    (log_checkin db habit_id c d).progress
      = db.progress ++ [⟨habit_id, d, if c then 1 else 0⟩] ∧
    get_streak db habit_id today = 0 := by
  refine ⟨rfl, ?_⟩
  rw [get_streak_eq_streakAux,
    get_completed_dates_eq_nil db habit_id (fun r hr h1 => (hnorow r hr h1).elim)]
  rfl

/-- C3 fails as stated: in the empty database habit 42 does not exist, yet
`log_checkin` succeeds and stores the orphan row, and `get_streak` returns
the defaulted value 0 — neither operation fails with a NotFound error. -/
theorem C3_counterexample :
    (∀ hb ∈ exDbEmpty.habits, hb.id ≠ 42) ∧
    (log_checkin exDbEmpty 42 true 100).progress = [⟨42, 100, 1⟩] ∧
    get_streak exDbEmpty 42 100 = 0 := by
  decide

/-- C3 witness: checking in habit 42 on the empty database appends its row
and the streak query returns 0. -/
theorem C3_missing_habit_not_rejected_witness :
    (log_checkin exDbEmpty 42 true 100).progress
      = exDbEmpty.progress ++ [⟨42, 100, 1⟩] ∧
    get_streak exDbEmpty 42 100 = 0 :=
  C3_missing_habit_not_rejected exDbEmpty 42 true 100 100 (by decide) (by decide)

/-- C4 (amended): `get_streak` is invariant under permutation of the progress
log — insertion order is irrelevant — and hence depends only on the multiset
of completed dates; it is not, however, a function of the completed date
*set* alone (see the counterexample: duplicates change the result). -/
theorem C4_streak_insertion_order_independent (db db' : DB) (habit_id : Nat) (today : Int)
    (hperm : db.progress.Perm db'.progress) :
    get_streak db habit_id today = get_streak db' habit_id today := by
  simp only [get_streak, get_completed_dates_perm_congr habit_id hperm]

/-- C4 fails as stated: `exDbPair` and `exDbDup` mark exactly the same
calendar dates as completed for habit 1 (days 100 and 99), yet their streaks
on day 100 differ (2 versus 1), because `exDbDup` stores day 100 twice. -/
theorem C4_counterexample :
    (∀ d ∈ _get_completed_dates exDbPair 1, d ∈ _get_completed_dates exDbDup 1) ∧
    (∀ d ∈ _get_completed_dates exDbDup 1, d ∈ _get_completed_dates exDbPair 1) ∧
    get_streak exDbPair 1 100 = 2 ∧ get_streak exDbDup 1 100 = 1 := by
  decide

/-- C4 witness: the two insertion orders of the same two rows give the same
streak. -/
theorem C4_streak_insertion_order_independent_witness :
    get_streak exDbPair 1 100 = get_streak exDbPairRev 1 100 :=
  C4_streak_insertion_order_independent exDbPair exDbPairRev 1 100 (by decide)

/-- C5 (confirmed): if the habit has no completed record dated `today`, the
streak computed with `today` as the reference date is 0, whatever the
earlier completions are. -/
theorem C5_streak_zero_without_today (db : DB) (habit_id : Nat) (today : Int)
    (hnotoday : ¬ completedOn db habit_id today) :
    get_streak db habit_id today = 0 := by
  rw [get_streak_eq_streakAux]
  cases hL : _get_completed_dates db habit_id with
  | nil => rfl
  | cons d ds =>
    have hdmem : d ∈ _get_completed_dates db habit_id := by
      rw [hL]; exact List.mem_cons_self d ds
    have hd : d ≠ today := fun heq =>
      hnotoday (heq ▸ (mem_get_completed_dates db habit_id d).mp hdmem)
    simp [streakAux, hd]

/-- C5 witness: a completion on day 99 only gives streak 0 on day 100. -/
theorem C5_streak_zero_without_today_witness : get_streak exDbPrev 1 100 = 0 :=
  C5_streak_zero_without_today exDbPrev 1 100 (by decide)

/-- C6 (confirmed): a habit with no completed records has streak 0 for every
reference date. -/
theorem C6_streak_zero_without_history (db : DB) (habit_id : Nat) (today : Int)
    (hnone : ∀ r ∈ db.progress, r.habit_id = habit_id → r.completed ≠ 1) :
    get_streak db habit_id today = 0 := by
  rw [get_streak_eq_streakAux, get_completed_dates_eq_nil db habit_id hnone]
  rfl

/-- C6 witness: habit 1 has only a not-completed row in `exDbMiss`, so its
streak is 0 (shown at reference date 12345). -/
theorem C6_streak_zero_without_history_witness : get_streak exDbMiss 1 12345 = 0 :=
  C6_streak_zero_without_history exDbMiss 1 12345 (by decide)

/-- C7 (confirmed): `_get_completed_dates` is sorted descending, contains a
date exactly when the habit has a completed record on it, and is empty
exactly when the habit has no completed record at all.  (In the model its
type `DB → Nat → List Int` already shows it performs no writes.) -/
theorem C7_completed_dates_exact_and_sorted (db : DB) (habit_id : Nat) :
    List.Sorted (fun a b : Int => b ≤ a) (_get_completed_dates db habit_id) ∧
    (∀ d : Int, d ∈ _get_completed_dates db habit_id ↔ completedOn db habit_id d) ∧
    (_get_completed_dates db habit_id = [] ↔ ∀ d : Int, ¬ completedOn db habit_id d) := by
  refine ⟨sorted_get_completed_dates db habit_id,
    fun d => mem_get_completed_dates db habit_id d, ?_, ?_⟩
  · intro hnil d hc
    have hmem := (mem_get_completed_dates db habit_id d).mpr hc
    rw [hnil] at hmem
    exact List.not_mem_nil d hmem
  · intro hnone
    cases hL : _get_completed_dates db habit_id with
    | nil => rfl
    | cons d ds =>
      exact absurd
        ((mem_get_completed_dates db habit_id d).mp (hL ▸ List.mem_cons_self d ds))
        (hnone d)

/-- C8 (confirmed): the milestone message is non-empty exactly for streaks
3, 7 and 10, and empty for every other value. -/
theorem C8_milestone_message_iff (streak : Int) :
    (streak = 3 ∨ streak = 7 ∨ streak = 10) ↔ get_milestone_message streak ≠ "" := by
  constructor
  · rintro (rfl | rfl | rfl) <;> decide
  · intro hne
    by_contra hcon
    refine hne ?_
    unfold get_milestone_message
    rw [if_neg hcon]

/-- C9 (confirmed): whenever the API key is missing (unset or empty) or the
LLM call raises, `get_motivational_message` returns the canned random quote
— an element of `QUOTES` — and, being total, propagates no error. -/
theorem C9_enrichment_failure_falls_back (api_key : Option String) (outcome : LLMOutcome)
    (randIndex : Nat) (user_name habit_name : String) (streak : Int)
    (hfail : api_key = none ∨ api_key = some "" ∨ outcome = LLMOutcome.error) :
    get_motivational_message api_key outcome randIndex user_name habit_name streak
      = get_random_quote randIndex ∧
    get_motivational_message api_key outcome randIndex user_name habit_name streak
      ∈ QUOTES := by
  have hmem := get_random_quote_mem randIndex
  have heq : get_motivational_message api_key outcome randIndex user_name habit_name streak
      = get_random_quote randIndex := by
    rcases hfail with rfl | rfl | rfl
    · rfl
    · simp [get_motivational_message]
    · cases api_key with
      | none => rfl
      | some k =>
        by_cases hk : k = ""
        · simp [get_motivational_message, hk]
        · simp [get_motivational_message, hk]
  exact ⟨heq, heq ▸ hmem⟩

/-- C9 witness: with no API key and a failing LLM call the function returns
the canned quote drawn at index 0, which belongs to `QUOTES`. -/
theorem C9_enrichment_failure_falls_back_witness :
    get_motivational_message none LLMOutcome.error 0 "Alice" "meditate" 5
      = get_random_quote 0 ∧
    get_motivational_message none LLMOutcome.error 0 "Alice" "meditate" 5 ∈ QUOTES :=
  C9_enrichment_failure_falls_back none LLMOutcome.error 0 "Alice" "meditate" 5 (Or.inl rfl)

/-- C10 (confirmed): `log_checkin` always appends one row — it neither
rejects nor overwrites an existing row for the same habit and date — and a
repeated completed check-in raises both the row count for that (habit, date,
completed) triple and the multiplicity of the date in the completed-dates
query by one. -/
theorem C10_checkins_accumulate (db : DB) (habit_id : Nat) (c : Bool) (d : Int) :
    (log_checkin db habit_id c d).progress.length = db.progress.length + 1 ∧
    (log_checkin db habit_id true d).progress.count (⟨habit_id, d, 1⟩ : ProgressRow)
      = db.progress.count (⟨habit_id, d, 1⟩ : ProgressRow) + 1 ∧
    (_get_completed_dates (log_checkin db habit_id true d) habit_id).count d
      = (_get_completed_dates db habit_id).count d + 1 := by
  refine ⟨by simp [log_checkin], by simp [log_checkin, List.count_append], ?_⟩
  have h1 := (List.perm_insertionSort (fun a b : Int => b ≤ a)
    (((log_checkin db habit_id true d).progress.filter (completedRow habit_id)).map
      (fun r => r.checkin_date))).count_eq d
  have h2 := (List.perm_insertionSort (fun a b : Int => b ≤ a)
    ((db.progress.filter (completedRow habit_id)).map (fun r => r.checkin_date))).count_eq d
  unfold _get_completed_dates
  rw [h1, h2, raw_log_checkin_true]
  simp
